import Mathlib

/-!
Verification development for the Typhoon ASR service (`src/main.py`).

The embedding below translates the core of `main.py` — the model cache
(`get_or_load_model`), the temporary-file staging, the result normalization,
and the single-file and batch transcription endpoints — into executable Lean
definitions. The inference engine (the `transformers` `pipeline` constructor
and the resulting callable model) is an external collaborator; it is
parametrised as an explicit function threading an engine state `σ`, so that
stub engines (call counters, argument recorders) can instantiate it in
theorems, matching how the endpoints treat it as an opaque black box.
-/

namespace TyphoonASR

/-- The `ASRModel` enum of `main.py` (the closed set of model identifiers). -/
inductive ASRModel
  | typhoonIsanWhisper
  | monsoonWhisperMedium
deriving DecidableEq

/-- One entry of the `MODEL_CONFIG` table of `main.py`. -/
structure ModelConfigEntry where
  repo : String
  description : String
  language : String
deriving DecidableEq

/-- The `MODEL_CONFIG` table of `main.py` (lines 21-32). -/
def MODEL_CONFIG : ASRModel → ModelConfigEntry
  | .typhoonIsanWhisper =>
      { repo := "scb10x/typhoon-isan-asr-whisper"
        description := "Whisper model optimized for Isan dialect (highest accuracy, CER: 8.85%)"
        language := "th-isan" }
  | .monsoonWhisperMedium =>
      { repo := "scb10x/monsoon-whisper-medium-gigaspeech2"
        description := "Whisper model for standard Thai language (0.8B parameters)"
        language := "th" }

/-- The string value of each `ASRModel` enum member (`model.value` in `main.py`). -/
def modelValue : ASRModel → String
  | .typhoonIsanWhisper => "typhoon-isan-asr-whisper"
  | .monsoonWhisperMedium => "monsoon-whisper-medium-gigaspeech2"

/-- The two torch numeric precisions the loader chooses between. -/
inductive Dtype
  | float16
  | float32
deriving DecidableEq

/-- The arguments `get_or_load_model` passes to the engine's `pipeline`
constructor (`main.py` lines 70-77). `device` is `0` for the accelerator and
`-1` for the general-purpose processor, exactly as in the source. -/
structure BuildArgs where
  task : String
  model : String
  device : Int
  torchDtype : Dtype
  chunkLengthS : Nat
  returnTimestamps : Bool
deriving DecidableEq

/-- The build arguments computed by `get_or_load_model` for a cache miss:
device `0`/`-1` from `cuda` availability, `float16` on the accelerator and
`float32` otherwise, 30-second chunks, timestamp decoding enabled. -/
def buildArgsFor (cudaAvailable : Bool) (model_name : ASRModel) : BuildArgs :=
  { task := "automatic-speech-recognition"
    model := (MODEL_CONFIG model_name).repo
    device := if cudaAvailable then 0 else -1
    torchDtype := if cudaAvailable then .float16 else .float32
    chunkLengthS := 30
    returnTimestamps := true }

/-- `get_or_load_model` of `main.py` (lines 59-86). The global dict
`loaded_models` is the explicit `cache` association list; the engine's
`pipeline` constructor is the explicit `build` collaborator over an engine
state `σ` (unchanged when no build happens). On a cache hit the stored handle
is returned and nothing is built; on a miss the handle is built and stored; if
the build raises, the `HTTPException` detail `"Failed to load model: ..."` is
surfaced and the cache is left unchanged (the store on line 70 never ran). -/
def get_or_load_model {σ H : Type} (build : σ → BuildArgs → σ × Except String H)
    (cudaAvailable : Bool) (s : σ) (cache : List (ASRModel × H)) (model_name : ASRModel) :
    σ × Except String H × List (ASRModel × H) :=
  match cache.lookup model_name with
  | some h => (s, .ok h, cache)
  | none =>
    match build s (buildArgsFor cudaAvailable model_name) with
    | (s₁, .ok h) => (s₁, .ok h, cache ++ [(model_name, h)])
    | (s₁, .error e) => (s₁, .error ("Failed to load model: " ++ e), cache)

/-- The filename validation of both endpoints:
`file.filename.lower().endswith('.wav')`, computed on the underlying
character sequence (lower-case every character, then check the suffix). -/
def wavOk (filename : String) : Bool :=
  List.isSuffixOf ".wav".data (filename.data.map Char.toLower)

/-- The temporary-file store backing `tempfile.NamedTemporaryFile` /
`os.unlink`: the list of temp-file paths currently on storage plus a
fresh-name counter. -/
structure Storage where
  files : List String
  nextId : Nat
deriving DecidableEq

/-- The path `tempfile` hands out for the `k`-th allocation. -/
def tempName (k : Nat) : String :=
  "/tmp/s2p-" ++ toString k ++ ".wav"

/-- `tempfile.NamedTemporaryFile(delete=False, suffix='.wav')` plus the write
of the uploaded bytes: allocates a uniquely-named temp file and returns its
path. -/
def stage (st : Storage) : Storage × String :=
  let path := tempName st.nextId
  ({ files := st.files ++ [path], nextId := st.nextId + 1 }, path)

/-- `os.unlink(path)`. -/
def unlink (st : Storage) (p : String) : Storage :=
  { st with files := st.files.erase p }

/-- `os.path.exists(path)`. -/
def os_path_exists (st : Storage) (p : String) : Bool :=
  st.files.contains p

/-- Storage whose existing files never collide with names `tempfile` will
hand out next. -/
def Storage.Fresh (st : Storage) : Prop :=
  ∀ k, st.nextId ≤ k → tempName k ∉ st.files

/-- Storage with no temp files and the name counter at zero. -/
def emptyStorage : Storage :=
  { files := [], nextId := 0 }

/-- The raw value the engine's inference call returns: a structured record
(a dict, here with string fields), a plain string, or some other shape whose
`str()` rendering is carried as `repr`. -/
inductive RawResult
  | dict (fields : List (String × String))
  | str (s : String)
  | other (repr : String)
deriving DecidableEq

/-- The result normalization of `main.py` (lines 158-163 and 234-239):
a dict yields `result.get("text", "")`, a bare string is used directly, and
any other shape falls back to `str(result)`. -/
def extract_text : RawResult → String
  | .dict fields => (fields.lookup "text").getD ""
  | .str s => s
  | .other r => r

/-- Outcome of one engine inference call: a raw result, or a raised
exception with its message. -/
inductive InferOutcome
  | ok (result : RawResult)
  | raise (msg : String)
deriving DecidableEq

/-- The `TranscriptionResponse` model of `main.py` (success payload of the
single-file endpoint). -/
structure TranscriptionResponse where
  text : String
  model : String
  language : String
  status : String
deriving DecidableEq

/-- What the single-file endpoint hands back to the transport: a success
payload, or an `HTTPException` with status code and detail. -/
inductive SingleResponse
  | success (resp : TranscriptionResponse)
  | httpError (statusCode : Nat) (detail : String)
deriving DecidableEq

/-- The `/transcribe` endpoint `transcribe_audio` of `main.py` (lines
113-187): validate the extension (400 before anything else on failure), get
or load the model (a load failure propagates as a 500 before any staging),
stage the upload to a temp file, run inference (`inferResult` is the engine
call on the handle and staged path), normalize the result, and in the
`finally` block unlink the temp file when it was created and still exists.
Returns the final engine state, cache, storage, and response. -/
def transcribe_audio {σ H : Type} (build : σ → BuildArgs → σ × Except String H)
    (cudaAvailable : Bool) (s : σ) (cache : List (ASRModel × H)) (st : Storage)
    (inferResult : H → String → InferOutcome) (filename : String) (model : ASRModel) :
    σ × List (ASRModel × H) × Storage × SingleResponse :=
  if ¬ wavOk filename then
    (s, cache, st,
      .httpError 400 "Only WAV files are supported. Please upload a .wav file.")
  else
    match get_or_load_model build cudaAvailable s cache model with
    | (s₁, .error e, cache₁) => (s₁, cache₁, st, .httpError 500 e)
    | (s₁, .ok h, cache₁) =>
      let staged := stage st
      let st₁ := staged.1
      let path := staged.2
      let outcome : SingleResponse :=
        match inferResult h path with
        | .ok r =>
            .success
              { text := extract_text r
                model := modelValue model
                language := (MODEL_CONFIG model).language
                status := "success" }
        | .raise e => .httpError 500 ("Failed to transcribe audio: " ++ e)
      let st₂ := if os_path_exists st₁ path then unlink st₁ path else st₁
      (s₁, cache₁, st₂, outcome)

/-- One uploaded file of a batch request: its client-supplied filename and
what the engine's inference call does on its staged content. -/
structure Upload where
  filename : String
  outcome : InferOutcome
deriving DecidableEq

/-- One entry of the batch report's `results` list. The source appends plain
dicts with differing key sets; absent keys are `none` here. -/
structure BatchEntry where
  filename : String
  status : String
  text : Option String := none
  model : Option String := none
  language : Option String := none
  message : Option String := none
deriving DecidableEq

/-- The loop body of `transcribe_batch` (`main.py` lines 212-258) for one
upload: an invalid extension records an error entry and continues (no temp
file is created); otherwise the upload is staged and inference runs. On
success the entry carries the text, model and language and the temp file is
unlinked (line 250); on a raised inference exception the `except` branch
records an error entry — the source has no cleanup on that path, so the
staged file stays in storage. -/
def processUpload {H : Type} (_h : H) (model : ASRModel) (st : Storage) (u : Upload) :
    Storage × BatchEntry :=
  if ¬ wavOk u.filename then
    (st,
      { filename := u.filename, status := "error"
        message := some "Only WAV files are supported" })
  else
    let staged := stage st
    let st₁ := staged.1
    let path := staged.2
    match u.outcome with
    | .ok r =>
        let st₂ := unlink st₁ path
        (st₂,
          { filename := u.filename, status := "success"
            text := some (extract_text r)
            model := some (modelValue model)
            language := some (MODEL_CONFIG model).language })
    | .raise e =>
        (st₁, { filename := u.filename, status := "error", message := some e })

/-- The `for file in files` loop of `transcribe_batch`: process each upload
in input order, appending one entry per upload to `results`. -/
def processUploads {H : Type} (h : H) (model : ASRModel) :
    Storage → List Upload → Storage × List BatchEntry
  | st, [] => (st, [])
  | st, u :: rest =>
      let step := processUpload h model st u
      let next := processUploads h model step.1 rest
      (next.1, step.2 :: next.2)

/-- The aggregate payload of `/transcribe/batch`. -/
structure BatchResponse where
  results : List BatchEntry
  total : Nat
  model : String
  status : String
deriving DecidableEq

/-- The `/transcribe/batch` endpoint `transcribe_batch` of `main.py` (lines
189-265): load or fetch the model once, before the loop (a load failure
propagates as a 500 for the whole request), then run the loop over all
uploads and return the report with `total = len(files)`, the model value and
the aggregate status `"completed"`. -/
def transcribe_batch {σ H : Type} (build : σ → BuildArgs → σ × Except String H)
    (cudaAvailable : Bool) (s : σ) (cache : List (ASRModel × H)) (st : Storage)
    (files : List Upload) (model : ASRModel) :
    σ × List (ASRModel × H) × Storage × Except (Nat × String) BatchResponse :=
  match get_or_load_model build cudaAvailable s cache model with
  | (s₁, .error e, cache₁) => (s₁, cache₁, st, .error (500, e))
  | (s₁, .ok h, cache₁) =>
      let run := processUploads h model st files
      (s₁, cache₁, run.1,
        .ok
          { results := run.2
            total := files.length
            model := modelValue model
            status := "completed" })

/-- A stub engine that counts how many times the build operation runs and
always yields the handle `42`. -/
def countingBuild : Nat → BuildArgs → Nat × Except String Nat :=
  fun n _ => (n + 1, .ok 42)

/-- A stub engine that records the arguments of its last build. -/
def recordingBuild : Option BuildArgs → BuildArgs → Option BuildArgs × Except String Unit :=
  fun _ a => (some a, .ok ())

/-- A stub engine whose build always succeeds with a unit handle. -/
def stubBuildOk : Unit → BuildArgs → Unit × Except String Unit :=
  fun _ _ => ((), .ok ())

/-- A stub engine whose build always raises with the given message. -/
def failingBuild (msg : String) : Nat → BuildArgs → Nat × Except String Unit :=
  fun n _ => (n + 1, .error msg)

theorem lookup_append_of_eq_none {α β : Type} [BEq α] (a : α) (l l₂ : List (α × β))
    (hnone : l.lookup a = none) : (l ++ l₂).lookup a = l₂.lookup a := by
  induction l with
  | nil => rfl
  | cons p t ih =>
    obtain ⟨k, v⟩ := p
    by_cases hak : (a == k) = true
    · simp [List.lookup_cons, hak] at hnone
    · have hak' : (a == k) = false := by simpa using hak
      have ht : t.lookup a = none := by simpa [List.lookup_cons, hak'] using hnone
      simpa [List.lookup_cons, hak'] using ih ht

theorem lookup_append_singleton_self {α β : Type} [BEq α] [LawfulBEq α]
    (a : α) (b : β) (l : List (α × β)) (hnone : l.lookup a = none) :
    (l ++ [(a, b)]).lookup a = some b := by
  rw [lookup_append_of_eq_none a l [(a, b)] hnone]
  simp [List.lookup_cons]

theorem lookup_eq_none_not_mem_keys {α β : Type} [BEq α] [LawfulBEq α]
    (a : α) (l : List (α × β)) (hnone : l.lookup a = none) :
    a ∉ l.map Prod.fst := by
  induction l with
  | nil => simp
  | cons p t ih =>
    obtain ⟨k, v⟩ := p
    by_cases hak : (a == k) = true
    · simp [List.lookup_cons, hak] at hnone
    · have hak' : (a == k) = false := by simpa using hak
      have ht : t.lookup a = none := by simpa [List.lookup_cons, hak'] using hnone
      have hne : a ≠ k := by
        intro he
        subst he
        simp at hak'
      simpa [hne] using ih ht

/-- C3: for every supported model identifier, a `get_or_load_model` call on a
cache with no entry for that identifier invokes the engine's build operation
(producing handle `h` and engine state `s₁`) and stores the handle in the
cache; every subsequent call for the same identifier, from any engine state,
returns the identical stored handle with the engine state and cache untouched
— the build operation is not re-invoked. -/
theorem c3_first_load_caches_then_reuses {σ H : Type}
    (build : σ → BuildArgs → σ × Except String H) (cuda : Bool)
    (s s₁ : σ) (cache : List (ASRModel × H)) (id : ASRModel) (h : H)
    (hmiss : cache.lookup id = none)
    (hbuild : build s (buildArgsFor cuda id) = (s₁, .ok h)) :
    get_or_load_model build cuda s cache id = (s₁, .ok h, cache ++ [(id, h)])
    ∧ ∀ s₂ : σ, get_or_load_model build cuda s₂ (cache ++ [(id, h)]) id
        = (s₂, .ok h, cache ++ [(id, h)]) := by
  constructor
  · simp only [get_or_load_model, hmiss, hbuild]
  · intro s₂
    simp only [get_or_load_model, lookup_append_singleton_self id h cache hmiss]

/-- Witness for C3 at a concrete counting stub engine: the first call builds
exactly once (counter goes from 0 to 1) and stores handle 42; the second call
returns the identical handle with the counter unchanged. -/
theorem c3_first_load_caches_then_reuses_witness :
    get_or_load_model countingBuild false 0 [] .typhoonIsanWhisper
      = (1, .ok 42, [(.typhoonIsanWhisper, 42)])
    ∧ get_or_load_model countingBuild false 1 [(.typhoonIsanWhisper, 42)] .typhoonIsanWhisper
      = (1, .ok 42, [(.typhoonIsanWhisper, 42)]) := by
  have h := c3_first_load_caches_then_reuses countingBuild false 0 1 [] .typhoonIsanWhisper 42
    rfl rfl
  exact ⟨h.1, h.2 1⟩

/-- C4: if the engine's build operation fails for an identifier not in the
cache, `get_or_load_model` surfaces a load error carrying the underlying
engine message and returns the cache unchanged (no partial entry is stored);
when the build succeeds the handle is stored under that identifier; and
whatever the engine does, a cache with no duplicate identifiers never ends up
holding two entries for the same identifier. -/
theorem c4_load_failure_leaves_cache_unchanged {σ H : Type}
    (build : σ → BuildArgs → σ × Except String H) (cuda : Bool)
    (s s₁ : σ) (cache : List (ASRModel × H)) (id : ASRModel) (e : String)
    (hmiss : cache.lookup id = none)
    (hbuild : build s (buildArgsFor cuda id) = (s₁, .error e)) :
    get_or_load_model build cuda s cache id
      = (s₁, .error ("Failed to load model: " ++ e), cache)
    ∧ (∀ (s' : σ) (h : H), build s (buildArgsFor cuda id) = (s', .ok h) →
        ((get_or_load_model build cuda s cache id).2.2).lookup id = some h)
    ∧ (∀ (σ' H' : Type) (build' : σ' → BuildArgs → σ' × Except String H')
        (s' : σ') (cache' : List (ASRModel × H')) (id' : ASRModel),
        (cache'.map Prod.fst).Nodup →
        (((get_or_load_model build' cuda s' cache' id').2.2).map Prod.fst).Nodup) := by
  refine ⟨?_, ?_, ?_⟩
  · simp only [get_or_load_model, hmiss, hbuild]
  · intro s' h hb
    rw [hb] at hbuild
    cases hbuild
  · intro σ' H' build' s' cache' id' hnodup
    unfold get_or_load_model
    cases hl : cache'.lookup id' with
    | some h => simpa using hnodup
    | none =>
      cases hb : build' s' (buildArgsFor cuda id') with
      | mk s₂ r =>
        cases r with
        | error e' => simpa using hnodup
        | ok h =>
          have hmem := lookup_eq_none_not_mem_keys id' cache' hl
          simp only [List.map_append, List.map_cons, List.map_nil]
          rw [List.nodup_append]
          exact ⟨hnodup, List.nodup_singleton id', by simpa using hmem⟩

/-- Witness for C4 at a concrete failing stub engine: the error detail wraps
the engine message and the cache stays empty. -/
theorem c4_load_failure_leaves_cache_unchanged_witness :
    get_or_load_model (failingBuild "boom") false 0 [] .typhoonIsanWhisper
      = (1, .error "Failed to load model: boom", []) := by
  exact (c4_load_failure_leaves_cache_unchanged (failingBuild "boom") false 0 1 []
    .typhoonIsanWhisper "boom" rfl rfl).1

theorem processUpload_filename {H : Type} (h : H) (model : ASRModel)
    (st : Storage) (u : Upload) :
    (processUpload h model st u).2.filename = u.filename := by
  unfold processUpload
  by_cases hw : wavOk u.filename
  · cases u.outcome <;> simp [hw]
  · simp [hw]

theorem processUpload_error_shape {H : Type} (h : H) (model : ASRModel)
    (st : Storage) (u : Upload) :
    (processUpload h model st u).2.status = "error" →
      ((processUpload h model st u).2.message).isSome
      ∧ (processUpload h model st u).2.text = none := by
  unfold processUpload
  by_cases hw : wavOk u.filename
  · cases u.outcome <;> simp [hw]
  · simp [hw]

theorem processUploads_length {H : Type} (h : H) (model : ASRModel)
    (files : List Upload) :
    ∀ st : Storage, ((processUploads h model st files).2).length = files.length := by
  induction files with
  | nil => intro st; rfl
  | cons u rest ih =>
    intro st
    simp only [processUploads, List.length_cons, ih]

theorem processUploads_filenames {H : Type} (h : H) (model : ASRModel)
    (files : List Upload) :
    ∀ st : Storage, ((processUploads h model st files).2).map BatchEntry.filename
      = files.map Upload.filename := by
  induction files with
  | nil => intro st; rfl
  | cons u rest ih =>
    intro st
    simp only [processUploads, List.map_cons, ih, processUpload_filename]

theorem processUploads_error_shape {H : Type} (h : H) (model : ASRModel)
    (files : List Upload) :
    ∀ st : Storage, ∀ e ∈ (processUploads h model st files).2,
      e.status = "error" → e.message.isSome ∧ e.text = none := by
  induction files with
  | nil => intro st e he; cases he
  | cons u rest ih =>
    intro st e he
    simp only [processUploads, List.mem_cons] at he
    rcases he with he | he
    · subst he
      exact processUpload_error_shape h model st u
    · exact ih _ e he

/-- C9: on a cache miss `get_or_load_model` hands the engine's build
operation exactly the configuration of `main.py` lines 70-77: device 0 (the
accelerator) when one is available and -1 (the general-purpose processor)
otherwise, reduced `float16` precision exactly when the accelerator is used
and full `float32` precision otherwise, fixed 30-second chunked processing,
and timestamp-aware decoding. -/
theorem c9_build_configuration (cuda : Bool) (cache : List (ASRModel × Unit))
    (id : ASRModel) (hmiss : cache.lookup id = none) :
    (get_or_load_model recordingBuild cuda none cache id).1 = some (buildArgsFor cuda id)
    ∧ (buildArgsFor cuda id).device = (if cuda then 0 else -1)
    ∧ (buildArgsFor cuda id).torchDtype = (if cuda then .float16 else .float32)
    ∧ (buildArgsFor cuda id).chunkLengthS = 30
    ∧ (buildArgsFor cuda id).returnTimestamps = true := by
  refine ⟨?_, rfl, rfl, rfl, rfl⟩
  simp only [get_or_load_model, hmiss, recordingBuild]

/-- Witness for C9 with an accelerator available and an empty cache. -/
theorem c9_build_configuration_witness :
    (get_or_load_model recordingBuild true none [] .monsoonWhisperMedium).1
      = some (buildArgsFor true .monsoonWhisperMedium)
    ∧ (buildArgsFor true .monsoonWhisperMedium).device = 0
    ∧ (buildArgsFor true .monsoonWhisperMedium).torchDtype = .float16
    ∧ (buildArgsFor true .monsoonWhisperMedium).chunkLengthS = 30
    ∧ (buildArgsFor true .monsoonWhisperMedium).returnTimestamps = true := by
  have h := c9_build_configuration true [] .monsoonWhisperMedium rfl
  exact ⟨h.1, h.2.1, h.2.2.1, h.2.2.2.1, h.2.2.2.2⟩

/-- C1 (amended): in the single-file endpoint an upload whose filename does
not end in `.wav` is rejected with a 400 before `get_or_load_model` runs —
the engine state, cache and storage are returned untouched (no build, no
staging); in the batch endpoint's loop body an invalid-extension upload is
recorded as a failure entry without staging that file. (The batch endpoint
itself, however, loads the model before any per-upload validation; see the
counterexample.) -/
theorem c1_validation_before_expensive_work {σ H : Type}
    (build : σ → BuildArgs → σ × Except String H) (cuda : Bool)
    (s : σ) (cache : List (ASRModel × H)) (st : Storage)
    (inferResult : H → String → InferOutcome) (filename : String) (model : ASRModel)
    (hbad : wavOk filename = false) :
    transcribe_audio build cuda s cache st inferResult filename model
      = (s, cache, st,
          .httpError 400 "Only WAV files are supported. Please upload a .wav file.")
    ∧ ∀ (h : H) (st' : Storage) (u : Upload), wavOk u.filename = false →
        processUpload h model st' u
          = (st',
              { filename := u.filename, status := "error"
                message := some "Only WAV files are supported" }) := by
  constructor
  · simp [transcribe_audio, hbad]
  · intro h st' u hbad'
    simp [processUpload, hbad']

/-- Witness for the amended C1: a single-endpoint request for `clip.mp3`
with a counting engine is rejected with the counter still 0, the cache empty
and the storage empty; the batch loop body on `clip.mp3` records a failure
entry without staging. -/
theorem c1_validation_before_expensive_work_witness :
    wavOk "clip.mp3" = false
    ∧ transcribe_audio countingBuild false 0 [] emptyStorage
        (fun _ _ => .ok (.str "x")) "clip.mp3" .typhoonIsanWhisper
      = (0, [], emptyStorage,
          .httpError 400 "Only WAV files are supported. Please upload a .wav file.")
    ∧ processUpload (42 : Nat) .typhoonIsanWhisper emptyStorage
        { filename := "clip.mp3", outcome := .ok (.str "x") }
      = (emptyStorage,
          { filename := "clip.mp3", status := "error"
            message := some "Only WAV files are supported" }) := by
  have h := c1_validation_before_expensive_work countingBuild false 0 [] emptyStorage
    (fun _ _ => .ok (.str "x")) "clip.mp3" .typhoonIsanWhisper rfl
  exact ⟨rfl, h.1, h.2 42 emptyStorage
    { filename := "clip.mp3", outcome := .ok (.str "x") } rfl⟩

/-- C1 counterexample: the claim as stated fails for the batch endpoint —
`transcribe_batch` calls `get_or_load_model` before any per-upload
validation (line 208, before the loop), so a batch whose only upload has an
invalid extension still loads the model: with a counting engine and an empty
cache the build counter ends at 1, even though the only upload is recorded
as a validation failure. -/
theorem c1_batch_loads_model_despite_invalid_upload :
    (transcribe_batch countingBuild false 0 [] emptyStorage
        [{ filename := "clip.mp3", outcome := .ok (.str "x") }] .typhoonIsanWhisper).1 = 1
    ∧ (transcribe_batch countingBuild false 0 [] emptyStorage
        [{ filename := "clip.mp3", outcome := .ok (.str "x") }] .typhoonIsanWhisper).2.2.2
      = .ok
          { results := [{ filename := "clip.mp3", status := "error"
                          message := some "Only WAV files are supported" }]
            total := 1
            model := "typhoon-isan-asr-whisper"
            status := "completed" } := by
  exact ⟨rfl, rfl⟩

/-- C2: the batch endpoint violates the claim — on an inference failure the
`except` branch of the loop (lines 252-258) records the error entry but
never unlinks the staged temp file, so the staged file's backing storage
outlives the request: a batch of one valid `a.wav` upload whose inference
raises leaves the temp file on storage. The single-file endpoint, whose
`finally` block does the cleanup, removes it on the same path. -/
theorem c2_batch_leaks_staged_file_on_inference_failure :
    (transcribe_batch stubBuildOk false () [] emptyStorage
        [{ filename := "a.wav", outcome := .raise "engine failed" }] .typhoonIsanWhisper).2.2.1.files
      = [tempName 0]
    ∧ (transcribe_audio stubBuildOk false () [] emptyStorage
        (fun _ _ => .raise "engine failed") "a.wav" .typhoonIsanWhisper).2.2.1.files
      = [] := by
  exact ⟨rfl, rfl⟩

/-- C5: when the model is available (the pre-loop `get_or_load_model`
succeeds), the batch coordinator returns a report rather than raising, with
exactly one entry per input upload — so uploads after a failed one are still
processed — and every failure entry carries a message and no text field. -/
theorem c5_batch_failure_isolation {σ H : Type}
    (build : σ → BuildArgs → σ × Except String H) (cuda : Bool)
    (s s₁ : σ) (h : H) (cache cache₁ : List (ASRModel × H)) (st : Storage)
    (files : List Upload) (model : ASRModel)
    (hload : get_or_load_model build cuda s cache model = (s₁, .ok h, cache₁)) :
    ∃ report : BatchResponse,
      (transcribe_batch build cuda s cache st files model).2.2.2 = .ok report
      ∧ report.results.length = files.length
      ∧ ∀ e ∈ report.results, e.status = "error" → e.message.isSome ∧ e.text = none := by
  unfold transcribe_batch
  rw [hload]
  exact ⟨_, rfl, processUploads_length h model files st,
    processUploads_error_shape h model files st⟩

/-- Witness for C5: the spec's three-upload batch — valid, invalid
extension, valid — yields a report with three entries and well-shaped
failure entries, with the coordinator returning normally. -/
theorem c5_batch_failure_isolation_witness :
    get_or_load_model stubBuildOk false () [] .typhoonIsanWhisper
      = ((), .ok (), [(.typhoonIsanWhisper, ())])
    ∧ ∃ report : BatchResponse,
        (transcribe_batch stubBuildOk false () [] emptyStorage
          [{ filename := "a.wav", outcome := .ok (.str "hello") },
           { filename := "clip.mp3", outcome := .ok (.str "ignored") },
           { filename := "b.wav", outcome := .ok (.str "world") }] .typhoonIsanWhisper).2.2.2
          = .ok report
        ∧ report.results.length = 3
        ∧ ∀ e ∈ report.results, e.status = "error" → e.message.isSome ∧ e.text = none := by
  exact ⟨rfl, c5_batch_failure_isolation stubBuildOk false () () () []
    [(.typhoonIsanWhisper, ())] emptyStorage
    [{ filename := "a.wav", outcome := .ok (.str "hello") },
     { filename := "clip.mp3", outcome := .ok (.str "ignored") },
     { filename := "b.wav", outcome := .ok (.str "world") }] .typhoonIsanWhisper rfl⟩

/-- C6: when the model is available, the batch report has exactly one entry
per input upload, in input order, each tagged with the originating filename
(the reported filename sequence equals the input filename sequence); its
`total` equals the input file count and its aggregate `status` is the string
"completed" whatever the individual outcomes were. -/
theorem c6_batch_report_shape {σ H : Type}
    (build : σ → BuildArgs → σ × Except String H) (cuda : Bool)
    (s s₁ : σ) (h : H) (cache cache₁ : List (ASRModel × H)) (st : Storage)
    (files : List Upload) (model : ASRModel)
    (hload : get_or_load_model build cuda s cache model = (s₁, .ok h, cache₁)) :
    ∃ report : BatchResponse,
      (transcribe_batch build cuda s cache st files model).2.2.2 = .ok report
      ∧ report.results.map BatchEntry.filename = files.map Upload.filename
      ∧ report.total = files.length
      ∧ report.status = "completed"
      ∧ report.model = modelValue model := by
  unfold transcribe_batch
  rw [hload]
  exact ⟨_, rfl, processUploads_filenames h model files st, rfl, rfl, rfl⟩

/-- Witness for C6: a batch where the middle upload fails validation and the
last one's inference raises still reports all three filenames in input
order, `total = 3` and aggregate status "completed". -/
theorem c6_batch_report_shape_witness :
    get_or_load_model stubBuildOk false () [] .typhoonIsanWhisper
      = ((), .ok (), [(.typhoonIsanWhisper, ())])
    ∧ ∃ report : BatchResponse,
        (transcribe_batch stubBuildOk false () [] emptyStorage
          [{ filename := "a.wav", outcome := .ok (.str "hello") },
           { filename := "clip.mp3", outcome := .ok (.str "ignored") },
           { filename := "b.wav", outcome := .raise "engine failed" }] .typhoonIsanWhisper).2.2.2
          = .ok report
        ∧ report.results.map BatchEntry.filename = ["a.wav", "clip.mp3", "b.wav"]
        ∧ report.total = 3
        ∧ report.status = "completed"
        ∧ report.model = modelValue ASRModel.typhoonIsanWhisper := by
  exact ⟨rfl, c6_batch_report_shape stubBuildOk false () () () []
    [(.typhoonIsanWhisper, ())] emptyStorage
    [{ filename := "a.wav", outcome := .ok (.str "hello") },
     { filename := "clip.mp3", outcome := .ok (.str "ignored") },
     { filename := "b.wav", outcome := .raise "engine failed" }] .typhoonIsanWhisper rfl⟩

/-- C7: result normalization accepts all three engine result shapes (it is a
total function, so it never raises): a structured record whose text field is
`s` and the bare string `s` both normalize to `s`, an unrecognized shape
falls back to the string conversion of the whole value, and the single-file
endpoint returns the identical successful response for the record shape and
the bare-string shape. -/
theorem c7_result_normalization (s r : String) :
    extract_text (.dict [("text", s)]) = s
    ∧ extract_text (.str s) = s
    ∧ extract_text (.other r) = r
    ∧ (transcribe_audio stubBuildOk false () [] emptyStorage
        (fun _ _ => .ok (.dict [("text", s)])) "clip.wav" .typhoonIsanWhisper).2.2.2
      = (transcribe_audio stubBuildOk false () [] emptyStorage
          (fun _ _ => .ok (.str s)) "clip.wav" .typhoonIsanWhisper).2.2.2
    ∧ (transcribe_audio stubBuildOk false () [] emptyStorage
        (fun _ _ => .ok (.str s)) "clip.wav" .typhoonIsanWhisper).2.2.2
      = .success
          { text := s, model := "typhoon-isan-asr-whisper"
            language := "th-isan", status := "success" } := by
  exact ⟨rfl, rfl, rfl, rfl, rfl⟩

/-- C10: a structured record with no "text" field normalizes to the empty
string — `result.get("text", "")` takes its default rather than falling back
to the string conversion of the whole record — and the single-file endpoint
still reports success with empty text. -/
theorem c10_dict_without_text_field (fields : List (String × String))
    (hmiss : fields.lookup "text" = none) :
    extract_text (.dict fields) = ""
    ∧ (transcribe_audio stubBuildOk false () [] emptyStorage
        (fun _ _ => .ok (.dict fields)) "clip.wav" .typhoonIsanWhisper).2.2.2
      = .success
          { text := "", model := "typhoon-isan-asr-whisper"
            language := "th-isan", status := "success" } := by
  have h1 : extract_text (.dict fields) = "" := by
    simp [extract_text, hmiss]
  have h2 : (transcribe_audio stubBuildOk false () [] emptyStorage
      (fun _ _ => .ok (.dict fields)) "clip.wav" .typhoonIsanWhisper).2.2.2
      = .success
          { text := extract_text (.dict fields), model := "typhoon-isan-asr-whisper"
            language := "th-isan", status := "success" } := rfl
  rw [h1] at h2
  exact ⟨h1, h2⟩

/-- Witness for C10: a record holding only a "chunks" field yields empty
text and a successful single-file response. -/
theorem c10_dict_without_text_field_witness :
    ([("chunks", "c")] : List (String × String)).lookup "text" = none
    ∧ extract_text (.dict [("chunks", "c")]) = ""
    ∧ (transcribe_audio stubBuildOk false () [] emptyStorage
        (fun _ _ => .ok (.dict [("chunks", "c")])) "clip.wav" .typhoonIsanWhisper).2.2.2
      = .success
          { text := "", model := "typhoon-isan-asr-whisper"
            language := "th-isan", status := "success" } := by
  have h := c10_dict_without_text_field [("chunks", "c")] rfl
  exact ⟨rfl, h.1, h.2⟩

end TyphoonASR
